import Mathlib

/-!
Shallow embedding of the client-side data-access layer of the blog
application: the hooks module (src/lib/hooks.ts) and the schema contracts
it relies on (src/types/schema.ts).  Effectful hook bodies are embedded as
pure functions that return the final local state together with an explicit
trace of the network requests they issued; backend answers are passed in as
function parameters.
-/

namespace Blog

/-- The generic tri-state response envelope (src/types/schema.ts,
`ResponseState<T>`): `data`, `loading`, `error`. -/
structure ResponseState (α : Type) where
  data : α
  loading : Bool
  error : Option String
deriving Repr, DecidableEq

/-- Profile entity (src/types/schema.ts, `Profile`). Optional fields are
`Option String`. -/
structure Profile where
  id : String
  username : String
  display_name : Option String
  avatar_url : Option String
  bio : Option String
  created_at : String
  updated_at : String
deriving Repr, DecidableEq

/-- Category entity (src/types/schema.ts, `Category`). -/
structure Category where
  id : String
  name : String
  slug : String
  descrition : Option String
  created_at : String
deriving Repr, DecidableEq

/-- Post entity (src/types/schema.ts, `Post`), with its joined author
profile and joined categories. -/
structure Post where
  id : String
  title : String
  slug : String
  content : String
  excerpt : Option String
  featured_image : Option String
  published : Bool
  published_at : Option String
  created_at : String
  updated_at : String
  profiles : Profile
  post_categories : Option (List Category)
deriving Repr, DecidableEq

/-- Comment entity (src/types/schema.ts, `Comment`). -/
structure Comment where
  id : String
  content : String
  created_at : String
  updated_at : String
  profiles : Profile
deriving Repr, DecidableEq

/-- An authenticated backend user, as resolved by `supabase.auth.getUser()`
(only the id is consumed by this layer). -/
structure User where
  id : String
deriving Repr, DecidableEq

/-- Result of a write operation in `useComments`: either the locally raised
capability error object (a `\x7bmessage\x7d` record, no network mutation), or
the raw backend result of the issued mutation. -/
inductive MutationResult where
  | capErr (message : String)
  | res (r : Except String Unit)
deriving Repr

/-- The match predicate of the delete issued by `deleteComment`
(src/lib/hooks.ts line 371): `.match(\x7b id: commentId, author_id: user.id \x7d)`. -/
structure DeleteMatch where
  id : String
  author_id : String
deriving Repr, DecidableEq

/-- The row inserted by `addComment` (src/lib/hooks.ts lines 353-357):
`post_id`, `author_id`, `content`. -/
structure CommentInsertRow where
  post_id : String
  author_id : String
  content : String
deriving Repr, DecidableEq

/-- Outcome of one call to `deleteComment`: the list of network deletes it
issued (with their match predicates) and its returned result. -/
structure DeleteCall where
  deletes : List DeleteMatch
  result : MutationResult
deriving Repr

/-- Outcome of one call to `addComment`: the list of comment rows it
inserted, the list of local state writes it performed, and its returned
result. -/
structure AddCall where
  inserts : List CommentInsertRow
  stateWrites : List (ResponseState (List Comment))
  result : MutationResult
deriving Repr

/-- `deleteComment(commentId)` from `useComments` (src/lib/hooks.ts lines
362-372). `currentUser` is the user resolved from
`supabase.auth.getUser()`; `backendDelete` is the backend answering the
issued delete. If no user resolves, the capability error
`You must be logged in` is returned and no delete is issued; otherwise one
delete is issued, matched on both the comment id and the author id. -/
def deleteComment (currentUser : Option User)
    (backendDelete : DeleteMatch → Except String Unit)
    (commentId : String) : DeleteCall :=
  match currentUser with
  | none => { deletes := [], result := .capErr "You must be logged in" }
  | some user =>
      let m : DeleteMatch := { id := commentId, author_id := user.id }
      { deletes := [m], result := .res (backendDelete m) }

/-- `addComment(content)` from `useComments` (src/lib/hooks.ts lines
343-360). `postId` is the closed-over hook argument, `currentUser` the user
freshly resolved from `supabase.auth.getUser()`, `backendInsert` the
backend answering the issued insert. The body performs no local state
update in any branch. -/
def addComment (postId : Option String) (currentUser : Option User)
    (backendInsert : CommentInsertRow → Except String Unit)
    (content : String) : AddCall :=
  match postId with
  | none => { inserts := [], stateWrites := [], result := .capErr "No post selected" }
  | some pid =>
      match currentUser with
      | none =>
          { inserts := [], stateWrites := [],
            result := .capErr "You must be logged in to comment" }
      | some user =>
          let row : CommentInsertRow :=
            { post_id := pid, author_id := user.id, content := content }
          { inserts := [row], stateWrites := [],
            result := .res (backendInsert row) }

/-- The select/filter/order/range descriptor of the posts query issued by
the `fetchPosts` body of `usePosts` (src/lib/hooks.ts lines 129-144). -/
structure PostsQuery where
  table : String
  selectCols : List String
  eqPublished : Bool
  orderCol : String
  ascending : Bool
  range_from : Int
  range_to : Int
deriving Repr, DecidableEq

/-- The column list of the posts select, including the author profile join
(src/lib/hooks.ts lines 131-141). -/
def postsSelect : List String :=
  ["id", "title", "slug", "excerpt", "featured_image", "published_at",
   "profiles(id, username, display_name, avatar_url)"]

/-- The query built by `usePosts(page, pageSize)` (src/lib/hooks.ts lines
126-144): `from = (page - 1) * pageSize`, `to = from + pageSize - 1`,
filter `published = true`, order by `published_at` descending, range
`[from, to]`. -/
def usePostsQuery (page pageSize : Int) : PostsQuery :=
  let f := (page - 1) * pageSize
  let t := f + pageSize - 1
  { table := "posts", selectCols := postsSelect, eqPublished := true,
    orderCol := "published_at", ascending := false,
    range_from := f, range_to := t }

/-- The state write `setState(prev => (\x7b ...prev, loading: true, error: null \x7d))`
that every fetch body performs when it starts (src/lib/hooks.ts lines 124,
184, 240, 284). -/
def fetchStart (s : ResponseState α) : ResponseState α :=
  { s with loading := true, error := none }

/-- Initial state of `usePosts` (src/lib/hooks.ts lines 115-119). -/
def usePostsInit : ResponseState (List Post) :=
  { data := [], loading := true, error := none }

/-- Successful settlement of `usePosts` (src/lib/hooks.ts lines 148-152). -/
def usePostsSettleOk (d : List Post) : ResponseState (List Post) :=
  { data := d, loading := false, error := none }

/-- Failure settlement of `usePosts` (src/lib/hooks.ts lines 155-159):
spreads the previous state, so `data` is retained. -/
def usePostsSettleErr (prev : ResponseState (List Post)) :
    ResponseState (List Post) :=
  { prev with loading := false, error := some "Failed to load posts" }

/-- Initial state of `usePost` (src/lib/hooks.ts lines 170-174). -/
def usePostInit : ResponseState (Option Post) :=
  { data := none, loading := true, error := none }

/-- The state `usePost` settles to when the slug is absent
(src/lib/hooks.ts line 178). -/
def usePostNoSlug : ResponseState (Option Post) :=
  { data := none, loading := false, error := none }

/-- Successful settlement of `usePost` (src/lib/hooks.ts lines 209-213). -/
def usePostSettleOk (p : Post) : ResponseState (Option Post) :=
  { data := some p, loading := false, error := none }

/-- Failure settlement of `usePost` (src/lib/hooks.ts lines 216-220): a
fresh literal, so `data` is reset to null. -/
def usePostSettleErr : ResponseState (Option Post) :=
  { data := none, loading := false, error := some "Failed to load post" }

/-- Initial state of `useCategories` (src/lib/hooks.ts lines 231-235). -/
def useCategoriesInit : ResponseState (List Category) :=
  { data := [], loading := true, error := none }

/-- Successful settlement of `useCategories` (src/lib/hooks.ts lines
249-253). -/
def useCategoriesSettleOk (d : List Category) : ResponseState (List Category) :=
  { data := d, loading := false, error := none }

/-- Failure settlement of `useCategories` (src/lib/hooks.ts lines 256-260):
spreads the previous state, so `data` is retained. -/
def useCategoriesSettleErr (prev : ResponseState (List Category)) :
    ResponseState (List Category) :=
  { prev with loading := false, error := some "Failed to load categories" }

/-- Initial state of `useComments` (src/lib/hooks.ts lines 271-275). -/
def useCommentsInit : ResponseState (List Comment) :=
  { data := [], loading := true, error := none }

/-- The state `fetchComments` settles to when postId is absent
(src/lib/hooks.ts line 279). -/
def useCommentsNoPost : ResponseState (List Comment) :=
  { data := [], loading := false, error := none }

/-- Successful settlement of `fetchComments` (src/lib/hooks.ts lines
301-305). -/
def useCommentsSettleOk (d : List Comment) : ResponseState (List Comment) :=
  { data := d, loading := false, error := none }

/-- Failure settlement of `fetchComments` (src/lib/hooks.ts lines 308-312):
spreads the previous state, so `data` is retained. -/
def useCommentsSettleErr (prev : ResponseState (List Comment)) :
    ResponseState (List Comment) :=
  { prev with loading := false, error := some "Failed to load comments" }

/-- One run of the `usePost` effect body (src/lib/hooks.ts lines 176-225).
`backend` answers the single-row query for a slug with either a post row or
an error (covering both a backend error result and a thrown transport
error, which the catch treats alike). Returns the final state and the list
of slugs requested over the network. -/
def usePostEffect (slug : Option String)
    (backend : String → Except String Post)
    (prev : ResponseState (Option Post)) :
    ResponseState (Option Post) × List String :=
  match slug with
  | none => (usePostNoSlug, [])
  | some s =>
      match backend s with
      | .ok p => (usePostSettleOk p, [s])
      | .error _ => (usePostSettleErr, [s])

/-- The select/filter/order descriptor of the comments query issued by
`fetchComments` (src/lib/hooks.ts lines 286-297). -/
structure CommentsQuery where
  table : String
  selectCols : List String
  eqPostId : String
  orderCol : String
  ascending : Bool
deriving Repr, DecidableEq

/-- The comments query built by `fetchComments` for a post id: filter
`post_id = postId`, order by `created_at` ascending, author profile
joined. -/
def commentsQuery (postId : String) : CommentsQuery :=
  { table := "comments",
    selectCols := ["id", "content", "created_at",
      "profiles(id, username, display_name, avatar_url)"],
    eqPostId := postId, orderCol := "created_at", ascending := true }

/-- One run of `fetchComments` (src/lib/hooks.ts lines 277-314): with no
postId it settles to the empty no-error state and issues no request;
otherwise it issues the comments query and settles on the answer. Returns
the final state and the list of queries issued. -/
def fetchComments (postId : Option String)
    (backend : CommentsQuery → Except String (List Comment))
    (prev : ResponseState (List Comment)) :
    ResponseState (List Comment) × List CommentsQuery :=
  match postId with
  | none => (useCommentsNoPost, [])
  | some pid =>
      let q := commentsQuery pid
      match backend q with
      | .ok d => (useCommentsSettleOk d, [q])
      | .error _ => (useCommentsSettleErr (fetchStart prev), [q])

/-- A realtime channel subscription as opened by the `useComments` effect
(src/lib/hooks.ts lines 322-336): channel name `comments:` ++ postId,
filtered to insert events with `post_id = postId`. `active` records whether
`unsubscribe()` has not yet been called. -/
structure ChannelSub where
  channel : String
  filterPostId : String
  active : Bool
deriving Repr, DecidableEq

/-- One run of the `useComments` effect body (src/lib/hooks.ts lines
316-341): it runs `fetchComments`, then, only when postId is present, opens
the realtime subscription. Returns the final state, the queries issued and
the subscription opened (if any). -/
def useCommentsEffect (postId : Option String)
    (backend : CommentsQuery → Except String (List Comment))
    (prev : ResponseState (List Comment)) :
    ResponseState (List Comment) × List CommentsQuery × Option ChannelSub :=
  let fc := fetchComments postId backend prev
  match postId with
  | none => (fc.1, fc.2, none)
  | some pid =>
      (fc.1, fc.2,
       some { channel := "comments:" ++ pid, filterPostId := pid, active := true })

/-- Modelled from the spec: a stored post row of the external
backend-as-a-service (the Backend Client Handle's remote store is not part
of this repository). Only the columns the posts query consults are kept;
the `published_at` timestamp is a natural number, since only its ordering
matters. -/
structure BackendPostRow where
  id : Nat
  published : Bool
  published_at : Nat
deriving Repr, DecidableEq

/-- Insertion step of the backend ordering on `published_at`; `asc` selects
ascending or descending order. -/
def insertByPublishedAt (asc : Bool) (r : BackendPostRow) :
    List BackendPostRow → List BackendPostRow
  | [] => [r]
  | x :: xs =>
      if (if asc then r.published_at ≤ x.published_at
          else x.published_at ≤ r.published_at)
      then r :: x :: xs
      else x :: insertByPublishedAt asc r xs

/-- Backend ordering of post rows on `published_at`. -/
def sortByPublishedAt (asc : Bool) : List BackendPostRow → List BackendPostRow
  | [] => []
  | x :: xs => insertByPublishedAt asc x (sortByPublishedAt asc xs)

/-- Modelled from the spec: evaluation of a posts query by the external
backend (section 6 of the design: `eq` filter, `order`, then the inclusive
row window `range_from .. range_to`). -/
def evalPostsQuery (rows : List BackendPostRow) (q : PostsQuery) :
    List BackendPostRow :=
  let filtered := rows.filter (fun r => r.published == q.eqPublished)
  let sorted := sortByPublishedAt q.ascending filtered
  (sorted.drop q.range_from.toNat).take (q.range_to - q.range_from + 1).toNat

/-- A backend seeded with 15 published posts; post `i` has
`published_at = 1000 - i`, so rank `i` in published_at-descending order is
post `i`. -/
def seedPosts : List BackendPostRow :=
  (List.range 15).map (fun i =>
    { id := i + 1, published := true, published_at := 1000 - (i + 1) })

/-- The five posts ranked 11 through 15 of `seedPosts`, in
published_at-descending order. -/
def seedPostsPage2 : List BackendPostRow :=
  (List.range 5).map (fun i =>
    { id := i + 11, published := true, published_at := 1000 - (i + 11) })

/-- The tri-state contract of the data model: exactly one of (a) loading is
true, (b) error is non-null, (c) the state is settled with no error, holds
of the observed state. -/
def exactlyOneOfTri (s : ResponseState α) : Prop :=
  (s.loading = true ∧ ¬s.error ≠ none ∧ ¬(s.loading = false ∧ s.error = none)) ∨
  (¬s.loading = true ∧ s.error ≠ none ∧ ¬(s.loading = false ∧ s.error = none)) ∨
  (¬s.loading = true ∧ ¬s.error ≠ none ∧ (s.loading = false ∧ s.error = none))

theorem exactlyOne_loading (d : α) :
    exactlyOneOfTri { data := d, loading := true, error := none } := by
  simp [exactlyOneOfTri]

theorem exactlyOne_failed (d : α) (m : String) :
    exactlyOneOfTri { data := d, loading := false, error := some m } := by
  simp [exactlyOneOfTri]

theorem exactlyOne_settled (d : α) :
    exactlyOneOfTri { data := d, loading := false, error := none } := by
  simp [exactlyOneOfTri]

/-- States observable from a `usePosts` instance: the initial state and
every state written by its effect (src/lib/hooks.ts lines 114-167). -/
inductive PostsReach : ResponseState (List Post) → Prop where
  | init : PostsReach usePostsInit
  | start (s : ResponseState (List Post)) :
      PostsReach s → PostsReach (fetchStart s)
  | ok (s : ResponseState (List Post)) (d : List Post) :
      PostsReach s → PostsReach (usePostsSettleOk d)
  | err (s : ResponseState (List Post)) :
      PostsReach s → PostsReach (usePostsSettleErr s)

/-- States observable from a `usePost` instance (src/lib/hooks.ts lines
169-228). -/
inductive PostReach : ResponseState (Option Post) → Prop where
  | init : PostReach usePostInit
  | noSlug (s : ResponseState (Option Post)) :
      PostReach s → PostReach usePostNoSlug
  | start (s : ResponseState (Option Post)) :
      PostReach s → PostReach (fetchStart s)
  | ok (s : ResponseState (Option Post)) (p : Post) :
      PostReach s → PostReach (usePostSettleOk p)
  | err (s : ResponseState (Option Post)) :
      PostReach s → PostReach usePostSettleErr

/-- States observable from a `useCategories` instance (src/lib/hooks.ts
lines 230-268). -/
inductive CategoriesReach : ResponseState (List Category) → Prop where
  | init : CategoriesReach useCategoriesInit
  | start (s : ResponseState (List Category)) :
      CategoriesReach s → CategoriesReach (fetchStart s)
  | ok (s : ResponseState (List Category)) (d : List Category) :
      CategoriesReach s → CategoriesReach (useCategoriesSettleOk d)
  | err (s : ResponseState (List Category)) :
      CategoriesReach s → CategoriesReach (useCategoriesSettleErr s)

/-- States observable from a `useComments` instance (src/lib/hooks.ts lines
270-341). -/
inductive CommentsReach : ResponseState (List Comment) → Prop where
  | init : CommentsReach useCommentsInit
  | noPost (s : ResponseState (List Comment)) :
      CommentsReach s → CommentsReach useCommentsNoPost
  | start (s : ResponseState (List Comment)) :
      CommentsReach s → CommentsReach (fetchStart s)
  | ok (s : ResponseState (List Comment)) (d : List Comment) :
      CommentsReach s → CommentsReach (useCommentsSettleOk d)
  | err (s : ResponseState (List Comment)) :
      CommentsReach s → CommentsReach (useCommentsSettleErr s)

/-- A stored profile row as returned by the single-row profiles query in
`useAuth` (src/lib/hooks.ts lines 56-60); nullable columns are `Option`. -/
structure ProfileRow where
  id : String
  username : String
  display_name : Option String
  avatar_url : Option String
  bio : Option String
  created_at : String
  updated_at : String
deriving Repr, DecidableEq

/-- The `|| undefined` coercion used in the profile conversion
(src/lib/hooks.ts lines 71-73): a null or empty string becomes absent. -/
def orUndefined : Option String → Option String
  | none => none
  | some s => if s = "" then none else some s

/-- The conversion of a fetched profile row to the `Profile` type
(src/lib/hooks.ts lines 68-76). -/
def toProfile (r : ProfileRow) : Profile :=
  { id := r.id, username := r.username,
    display_name := orUndefined r.display_name,
    avatar_url := orUndefined r.avatar_url,
    bio := orUndefined r.bio,
    created_at := r.created_at, updated_at := r.updated_at }

/-- Outcome of the backend profile lookup in `useAuth`: a row, a backend
error result (the `error` field of the response), or a thrown transport
error. The two failure shapes reach the two distinct failure paths of the
source (src/lib/hooks.ts lines 62-65 and 79-81). -/
inductive LookupOutcome where
  | ok (row : ProfileRow)
  | errRes (e : String)
  | thrown (e : String)
deriving Repr, DecidableEq

/-- The local state of `useAuth` (src/lib/hooks.ts lines 22-25); the
session is kept abstract as an opaque token, since the profile effect never
consults it. -/
structure AuthSnapshot where
  session : Option String
  user : Option User
  profile : Option Profile
  loading : Bool
deriving Repr, DecidableEq

/-- One run of the profile-lookup effect of `useAuth` (src/lib/hooks.ts
lines 48-85) on the current snapshot: with no user it clears the profile;
on a successful lookup it stores the converted profile; on a backend error
result or a thrown transport error it logs and returns without writing any
state field. Returns the new snapshot and the log lines emitted. -/
def getProfile (lookup : String → LookupOutcome) (prev : AuthSnapshot) :
    AuthSnapshot × List String :=
  match prev.user with
  | none => ({ prev with profile := none }, [])
  | some u =>
      match lookup u.id with
      | .ok row => ({ prev with profile := some (toProfile row) }, [])
      | .errRes _ => (prev, ["Error fetching profile:"])
      | .thrown _ => (prev, ["Error fetching profile:"])

/-- A live `useComments` instance: the hook argument, the subscription it
holds and its current tri-state. -/
structure CommentsInstance where
  postId : Option String
  sub : Option ChannelSub
  state : ResponseState (List Comment)
deriving Repr

/-- Mounting a `useComments` instance: one run of the effect body from the
initial state. -/
def mountComments (postId : Option String)
    (backend : CommentsQuery → Except String (List Comment)) :
    CommentsInstance :=
  let e := useCommentsEffect postId backend useCommentsInit
  { postId := postId, sub := e.2.2, state := e.1 }

/-- Teardown of a `useComments` instance: the effect cleanup calls
`subscription.unsubscribe()` (src/lib/hooks.ts lines 338-340). Modelled
from the spec: the owning framework runs this cleanup when the owning
context is destroyed, and before re-running the effect when postId
changes. -/
def teardownComments (inst : CommentsInstance) : CommentsInstance :=
  { inst with sub := inst.sub.map (fun s => { s with active := false }) }

/-- Modelled from the spec: delivery of a realtime insert event on the
channel of an instance. The external realtime channel invokes the
registered callback only while the subscription is active and the event
matches the `post_id` filter; the registered callback runs `fetchComments`
(src/lib/hooks.ts lines 332-334). Returns the instance afterwards and
whether a refetch ran. -/
def deliverInsert (inst : CommentsInstance) (eventPostId : String)
    (backend : CommentsQuery → Except String (List Comment)) :
    CommentsInstance × Bool :=
  match inst.sub with
  | none => (inst, false)
  | some s =>
      if s.active && (s.filterPostId == eventPostId) then
        let fc := fetchComments inst.postId backend inst.state
        ({ inst with state := fc.1 }, true)
      else (inst, false)

end Blog

namespace Blog

/-- C1: deleteComment with no resolvable current user issues no network
delete and returns the capability error message `You must be logged in`;
with a current user it issues exactly one delete whose match predicate
carries both the comment id and the current user id. -/
theorem deleteComment_auth_spec (currentUser : Option User)
    (backendDelete : DeleteMatch → Except String Unit) (commentId : String) :
    (currentUser = none →
      deleteComment currentUser backendDelete commentId =
        { deletes := [], result := .capErr "You must be logged in" }) ∧
    (∀ u, currentUser = some u →
      (deleteComment currentUser backendDelete commentId).deletes =
        [{ id := commentId, author_id := u.id }]) := by
  constructor
  · intro h; subst h; rfl
  · intro u h; subst h; rfl

theorem deleteComment_auth_spec_witness :
    deleteComment none (fun _ => .ok ()) "c1" =
      { deletes := [], result := .capErr "You must be logged in" } ∧
    (deleteComment (some ⟨"u1"⟩) (fun _ => .ok ()) "c1").deletes =
      [{ id := "c1", author_id := "u1" }] :=
  ⟨(deleteComment_auth_spec none (fun _ => .ok ()) "c1").1 rfl,
   (deleteComment_auth_spec (some ⟨"u1"⟩) (fun _ => .ok ()) "c1").2 ⟨"u1"⟩ rfl⟩

/-- C2: addComment with a non-null postId performs no insert and returns an
error result when the fresh user lookup yields no user; when it yields a
user it inserts exactly one row with fields post_id, author_id = user id,
content, and performs no local state update in either case. -/
theorem addComment_auth_spec (pid : Option String) (currentUser : Option User)
    (backendInsert : CommentInsertRow → Except String Unit) (content : String) :
    (∀ p, pid = some p → currentUser = none →
      addComment pid currentUser backendInsert content =
        { inserts := [], stateWrites := [],
          result := .capErr "You must be logged in to comment" }) ∧
    (∀ p u, pid = some p → currentUser = some u →
      addComment pid currentUser backendInsert content =
        { inserts := [{ post_id := p, author_id := u.id, content := content }],
          stateWrites := [],
          result := .res (backendInsert
            { post_id := p, author_id := u.id, content := content }) }) := by
  constructor
  · intro p hp hu; subst hp; subst hu; rfl
  · intro p u hp hu; subst hp; subst hu; rfl

theorem addComment_auth_spec_witness :
    addComment (some "p1") none (fun _ => .ok ()) "hello" =
      { inserts := [], stateWrites := [],
        result := .capErr "You must be logged in to comment" } ∧
    addComment (some "p1") (some ⟨"u1"⟩) (fun _ => .ok ()) "hello" =
      { inserts := [{ post_id := "p1", author_id := "u1", content := "hello" }],
        stateWrites := [],
        result := .res (.ok ()) } :=
  ⟨(addComment_auth_spec (some "p1") none (fun _ => .ok ()) "hello").1 "p1" rfl rfl,
   (addComment_auth_spec (some "p1") (some ⟨"u1"⟩) (fun _ => .ok ()) "hello").2
     "p1" ⟨"u1"⟩ rfl rfl⟩

/-- C3: for page at least 1 and positive pageSize, the posts fetch of
usePosts requests exactly the inclusive row window from
(page - 1) * pageSize to page * pageSize - 1. -/
theorem usePostsQuery_window (page pageSize : Int)
    (hp : 1 ≤ page) (hs : 0 < pageSize) :
    (usePostsQuery page pageSize).range_from = (page - 1) * pageSize ∧
    (usePostsQuery page pageSize).range_to = page * pageSize - 1 := by
  refine ⟨rfl, ?_⟩
  show (page - 1) * pageSize + pageSize - 1 = page * pageSize - 1
  ring

theorem usePostsQuery_window_witness :
    (usePostsQuery 2 10).range_from = (2 - 1) * 10 ∧
    (usePostsQuery 2 10).range_to = 2 * 10 - 1 :=
  usePostsQuery_window 2 10 (by decide) (by decide)

/-- C4: a run of the usePost effect with an absent slug settles to
data null, loading false, error null, and issues no network request,
whatever the backend and the previous state are. -/
theorem usePost_nullSlug (backend : String → Except String Post)
    (prev : ResponseState (Option Post)) :
    usePostEffect none backend prev =
      ({ data := none, loading := false, error := none }, []) := rfl

/-- C8: a run of the useComments effect with an absent postId settles to
data empty list, loading false, error null, and opens no realtime
subscription, whatever the backend and the previous state are. -/
theorem useComments_nullPostId (backend : CommentsQuery → Except String (List Comment))
    (prev : ResponseState (List Comment)) :
    useCommentsEffect none backend prev =
      ({ data := [], loading := false, error := none }, [], none) := rfl

/-- C5: every posts query of usePosts filters on published = true, orders
by published_at descending and joins the author profile; and on a backend
seeded with 15 published posts, the query of usePosts(2, 10) evaluates to
the 5 posts ranked 11 through 15 in published_at-descending order. -/
theorem usePosts_published_order_join :
    (∀ page pageSize : Int,
      (usePostsQuery page pageSize).eqPublished = true ∧
      (usePostsQuery page pageSize).orderCol = "published_at" ∧
      (usePostsQuery page pageSize).ascending = false ∧
      "profiles(id, username, display_name, avatar_url)" ∈
        (usePostsQuery page pageSize).selectCols) ∧
    evalPostsQuery seedPosts (usePostsQuery 2 10) = seedPostsPage2 := by
  constructor
  · intro page pageSize
    refine ⟨rfl, rfl, rfl, ?_⟩
    simp [usePostsQuery, postsSelect]
  · decide

/-- C6: every state observable from usePosts, usePost, useCategories or
useComments satisfies the tri-state contract: exactly one of loading true,
error non-null, or settled with no error. -/
theorem triState_exactlyOne :
    (∀ s, PostsReach s → exactlyOneOfTri s) ∧
    (∀ s, PostReach s → exactlyOneOfTri s) ∧
    (∀ s, CategoriesReach s → exactlyOneOfTri s) ∧
    (∀ s, CommentsReach s → exactlyOneOfTri s) := by
  refine ⟨?_, ?_, ?_, ?_⟩
  · intro s h
    induction h with
    | init => exact exactlyOne_loading _
    | start s _ _ => exact exactlyOne_loading _
    | ok s d _ _ => exact exactlyOne_settled _
    | err s _ _ => exact exactlyOne_failed _ _
  · intro s h
    induction h with
    | init => exact exactlyOne_loading _
    | noSlug s _ _ => exact exactlyOne_settled _
    | start s _ _ => exact exactlyOne_loading _
    | ok s p _ _ => exact exactlyOne_settled _
    | err s _ _ => exact exactlyOne_failed _ _
  · intro s h
    induction h with
    | init => exact exactlyOne_loading _
    | start s _ _ => exact exactlyOne_loading _
    | ok s d _ _ => exact exactlyOne_settled _
    | err s _ _ => exact exactlyOne_failed _ _
  · intro s h
    induction h with
    | init => exact exactlyOne_loading _
    | noPost s _ _ => exact exactlyOne_settled _
    | start s _ _ => exact exactlyOne_loading _
    | ok s d _ _ => exact exactlyOne_settled _
    | err s _ _ => exact exactlyOne_failed _ _

theorem triState_exactlyOne_witness :
    exactlyOneOfTri usePostsInit ∧ exactlyOneOfTri usePostInit ∧
    exactlyOneOfTri useCategoriesInit ∧ exactlyOneOfTri useCommentsInit :=
  ⟨triState_exactlyOne.1 _ .init, triState_exactlyOne.2.1 _ .init,
   triState_exactlyOne.2.2.1 _ .init, triState_exactlyOne.2.2.2 _ .init⟩

/-- C7 counterexample: a profile lookup that fails does not always leave
the profile state null. Here a profile is already held (as after a
previous successful lookup) and the next lookup fails with a backend error
result: the failing run leaves the old profile in place, which is not
null. -/
theorem getProfile_failure_not_null :
    (getProfile (fun _ => .errRes "boom")
        ⟨some "s", some ⟨"u1"⟩,
         some ⟨"u1", "alice", none, none, none, "t0", "t0"⟩,
         false⟩).1.profile ≠ none := by
  decide

/-- C7 amended: for every profile lookup that fails (backend error result
or thrown transport error), the failure is logged and the snapshot is left
entirely unchanged: the profile keeps its previous value (hence stays null
whenever it was null), and session, user and loading are unaffected. -/
theorem getProfile_failure_frame (lookup : String → LookupOutcome)
    (prev : AuthSnapshot) (u : User) (hu : prev.user = some u)
    (hf : ∀ row, lookup u.id ≠ .ok row) :
    getProfile lookup prev = (prev, ["Error fetching profile:"]) := by
  cases h : lookup u.id with
  | ok row => exact absurd h (hf row)
  | errRes e => simp [getProfile, hu, h]
  | thrown e => simp [getProfile, hu, h]

theorem getProfile_failure_frame_witness :
    getProfile (fun _ => .thrown "network down")
        { session := none, user := some ⟨"u2"⟩, profile := none,
          loading := false } =
      ({ session := none, user := some ⟨"u2"⟩, profile := none,
         loading := false }, ["Error fetching profile:"]) :=
  getProfile_failure_frame (fun _ => .thrown "network down")
    { session := none, user := some ⟨"u2"⟩, profile := none,
      loading := false } ⟨"u2"⟩ rfl
    (fun _ h => LookupOutcome.noConfusion h)

/-- C9: after teardown of a useComments instance, delivery of any insert
event on its channel mutates no state and triggers no refetch, whatever
the event postId and the backend are. -/
theorem teardown_no_callback (inst : CommentsInstance) (eventPostId : String)
    (backend : CommentsQuery → Except String (List Comment)) :
    deliverInsert (teardownComments inst) eventPostId backend =
      (teardownComments inst, false) := by
  cases hs : inst.sub with
  | none => simp [deliverInsert, teardownComments, hs]
  | some s => simp [deliverInsert, teardownComments, hs]

/-- C10: on fetch failure, usePosts, useCategories and useComments keep the
previously held data, setting only loading to false and error to their
fixed strings; usePost instead resets data to null on failure. -/
theorem settleErr_frame :
    (∀ prev : ResponseState (List Post),
      usePostsSettleErr prev =
        { data := prev.data, loading := false, error := some "Failed to load posts" }) ∧
    (∀ prev : ResponseState (List Category),
      useCategoriesSettleErr prev =
        { data := prev.data, loading := false, error := some "Failed to load categories" }) ∧
    (∀ prev : ResponseState (List Comment),
      useCommentsSettleErr prev =
        { data := prev.data, loading := false, error := some "Failed to load comments" }) ∧
    usePostSettleErr =
      { data := none, loading := false, error := some "Failed to load post" } :=
  ⟨fun _ => rfl, fun _ => rfl, fun _ => rfl, rfl⟩

end Blog
